import Mathlib

/-!
Verification development for the LearnPulse AI Instructor Assistant.

The definitions below are a shallow embedding of the conversation
grounding and session-state orchestration pipeline of the repository:

* `app/services/support.py`  — dissatisfaction detection, support tickets;
* `app/api/routes.py`        — the `/chat` endpoint (`chat_endpoint`),
  its nested `simple_intent_detection`, entity resolution and session
  state update;
* `src/analytics.py`         — `get_student_stats` and the grounding
  snapshot builders (`prepare_grounding`, `prepare_comparison_grounding`,
  `prepare_multi_grounding`, `prepare_general_grounding`);
* `app/infrastructure/data_loader.py` — row-subset selection
  (`get_student_data`, `get_class_summary`).

Python strings are Lean `String`s; Python `str.lower`/`str.upper` on the
ASCII letters used by the data are `Char.toLower`/`Char.toUpper` mapped
over the characters.  Python dictionaries holding session state become a
`SessionState` structure; dictionary keys that a code path may leave
absent become `Option` fields.  External effects (the LLM call, the
SMTP send, the transcript file write, `uuid4`, `difflib.get_close_matches`)
are parameters of a `ChatEnv` record, so every theorem quantifies over
their outcomes.
-/

/-! ## String machinery: Python `str.lower`, `str.upper`, `in`, `find` -/

/-- Python `s.lower()` (ASCII case folding, as `Char.toLower`). -/
def lowerStr (s : String) : String :=
  String.mk (s.data.map Char.toLower)

/-- Python `s.upper()` (ASCII case folding, as `Char.toUpper`). -/
def upperStr (s : String) : String :=
  String.mk (s.data.map Char.toUpper)

/-- First index at which `needle` occurs in `hay` (both as char lists);
`none` when it does not occur.  Mirrors Python `hay.find(needle)`
(which returns `-1` for no occurrence). -/
def findSub (needle : List Char) : List Char → Option Nat
  | [] => if needle.isEmpty then some 0 else none
  | c :: rest =>
    if needle.isPrefixOf (c :: rest) then some 0
    else (findSub needle rest).map (· + 1)

/-- Python `hay.find(needle)` on strings, `none` standing for `-1`. -/
def strFind (hay needle : String) : Option Nat :=
  findSub needle.data hay.data

/-- Python `needle in hay` substring containment. -/
def strContains (hay needle : String) : Bool :=
  (strFind hay needle).isSome

/-- Python slice `l[-n:]` / pandas `DataFrame.tail(n)`: the last `n`
elements, in order (the whole list when it has at most `n` elements). -/
def lastN (n : Nat) (l : List α) : List α :=
  l.drop (l.length - n)

/-- Python truthiness of an optional string (`None` and `""` are falsy). -/
def pyTruthy : Option String → Bool
  | some s => s ≠ ""
  | none => false

/-- Python `a or b` on optional strings: `a` when truthy, else `b`. -/
def pyOr (a b : Option String) : Option String :=
  if pyTruthy a then a else b

/-! ## `app/services/support.py` -/

/-- The apostrophe character (U+0027), written by code point. -/
def apos : String := String.mk [Char.ofNat 39]

/-- The keyword list of `detect_dissatisfaction`. -/
def dissatisfactionKeywords : List String :=
  ["not satisfied", "doesn" ++ apos ++ "t help", "still wrong", "not working",
   "i need help", "speak to someone", "talk to support", "contact support",
   "human support", "this is wrong", "not what i asked",
   "doesn" ++ apos ++ "t answer",
   "unclear", "confusing", "frustrated", "not helpful"]

/-- `detect_dissatisfaction(message)`: case-insensitive substring match
against the fixed keyword list. -/
def detect_dissatisfaction (message : String) : Bool :=
  dissatisfactionKeywords.any (fun kw => strContains (lowerStr message) kw)

/-- `ESCALATION_THRESHOLD` from `app/services/support.py`. -/
def ESCALATION_THRESHOLD : Nat := 3

/-- The dictionary returned by `create_support_ticket`.  On the success
path the keys `ticket_id` and `email_sent` are present; on the failure
path (an exception while building the transcript) they are absent,
modelled as `none`. -/
structure TicketResult where
  success : Bool
  ticket_id : Option String
  email_sent : Option Bool
  deriving Repr, DecidableEq

/-- `send_support_ticket_email`: with no SMTP configuration the ticket is
only logged and the function returns `True`; with SMTP configured it
returns whether the actual send succeeded (it catches its own
exceptions and returns `False` on any error). -/
def send_support_ticket_email (smtpConfigured smtpSendOk : Bool) : Bool :=
  if smtpConfigured then smtpSendOk else true

/-- `create_support_ticket`: writes the transcript file, attempts the
email notification, and returns `success := true` with a ticket id as
long as the transcript write did not raise — the email outcome is only
recorded in `email_sent`.  When the transcript write raises
(`fileCreated = false`) it returns `success := false` with no ticket id. -/
def create_support_ticket (fileCreated smtpConfigured smtpSendOk : Bool)
    (ticketId : String) : TicketResult :=
  if fileCreated then
    { success := true
      ticket_id := some ticketId
      email_sent := some (send_support_ticket_email smtpConfigured smtpSendOk) }
  else
    { success := false, ticket_id := none, email_sent := none }

/-! ## `src/analytics.py` and `app/infrastructure/data_loader.py`

The tabular dataset is a list of rows.  The loader guarantees the
student, class and score columns exist (it derives the score column when
absent), so a row carries those three; the optional columns (attempts,
success_rate, concept, week_number, ...) are absent from the mock schema
modelled here, and `get_student_stats` correspondingly emits only the
fields whose source columns exist. -/

/-- One row of the performance dataset. -/
structure DataRow where
  student : String
  class_id : String
  score : ℚ
  deriving Repr, DecidableEq

/-- Insertion of a rational into a sorted list (ascending). -/
def insertRat (x : ℚ) : List ℚ → List ℚ
  | [] => [x]
  | y :: t => if x ≤ y then x :: y :: t else y :: insertRat x t

/-- Insertion sort, ascending — the order `pandas` sorts for the median. -/
def sortRats : List ℚ → List ℚ
  | [] => []
  | x :: t => insertRat x (sortRats t)

/-- Mean of a list of rationals (`Series.mean`); `0` only for the empty
list, which no caller reaches. -/
def ratMean (l : List ℚ) : ℚ :=
  l.sum / l.length

/-- `Series.median`: middle element of the sorted values, or the mean of
the two middle elements for an even count. -/
def ratMedian (l : List ℚ) : ℚ :=
  let s := sortRats l
  let n := s.length
  if n = 0 then 0
  else if n % 2 = 1 then s.getD (n / 2) 0
  else (s.getD (n / 2 - 1) 0 + s.getD (n / 2) 0) / 2

/-- `Series.max` of a nonempty list (`0` for empty, unreached). -/
def ratMax : List ℚ → ℚ
  | [] => 0
  | x :: t => t.foldl max x

/-- `Series.min` of a nonempty list (`0` for empty, unreached). -/
def ratMin : List ℚ → ℚ
  | [] => 0
  | x :: t => t.foldl min x

/-- The dictionary returned by `get_student_stats` over the modelled
schema.  The "student never appeared" early return carries only the
echoed name and `exists := False`; the remaining keys are absent
(`none`). -/
structure StudentStats where
  student : String
  exists_ : Bool
  total_sessions : Option Nat
  average_score : Option ℚ
  median_score : Option ℚ
  best_score : Option ℚ
  worst_score : Option ℚ
  deriving Repr, DecidableEq

/-- `get_student_stats(student_name, df)`: filter the rows whose
lower-cased student name equals the lower-cased query (the loader's
precomputed lower column makes this the effective comparison), then
aggregate.  An empty selection returns the exists-false shape. -/
def get_student_stats (student_name : String) (data : List DataRow) :
    StudentStats :=
  let sdf := data.filter (fun r => lowerStr r.student == lowerStr student_name)
  if sdf.isEmpty then
    { student := student_name, exists_ := false, total_sessions := none
      average_score := none, median_score := none
      best_score := none, worst_score := none }
  else
    let scores := sdf.map DataRow.score
    { student := student_name, exists_ := true
      total_sessions := some sdf.length
      average_score := some (ratMean scores)
      median_score := some (ratMedian scores)
      best_score := some (ratMax scores)
      worst_score := some (ratMin scores) }

/-- `get_student_data(name)`: the rows of one student, case-insensitive;
`None` when the selection is empty. -/
def get_student_data (name : String) (data : List DataRow) :
    Option (List DataRow) :=
  let sdf := data.filter (fun r => lowerStr r.student == lowerStr name)
  if sdf.isEmpty then none else some sdf

/-- `get_class_summary(class_id)`: the rows of one class, case-insensitive
(the class column exists in the modelled schema). -/
def get_class_summary (class_id : String) (data : List DataRow) :
    List DataRow :=
  data.filter (fun r => lowerStr r.class_id == lowerStr class_id)

/-! Grounding snapshot builders: for each grounding shape, the CSV block
appended to the grounding text holds `tail(rows_limit)` of the relevant
row subset.  These model the snapshot-selection logic of
`prepare_grounding`, `prepare_comparison_grounding`,
`prepare_multi_grounding` and `prepare_general_grounding`. -/

/-- Snapshot rows of `prepare_grounding` when a precomputed
`rows_snapshot` frame is passed (the chat endpoint always passes one for
the student and class shapes). -/
def prepare_grounding_snapshot (rows_snapshot : List DataRow)
    (rows_limit : Nat) : List DataRow :=
  lastN rows_limit rows_snapshot

/-- Snapshot rows of `prepare_comparison_grounding`: rows of either
student (case-insensitive membership mask), then `tail(rows_limit)`. -/
def prepare_comparison_grounding_snapshot (data : List DataRow)
    (student_a student_b : String) (rows_limit : Nat) : List DataRow :=
  lastN rows_limit (data.filter (fun r =>
    lowerStr r.student == lowerStr student_a ||
    lowerStr r.student == lowerStr student_b))

/-- Snapshot rows of `prepare_multi_grounding`: rows of any named
student (case-insensitive membership mask), then `tail(rows_limit)`. -/
def prepare_multi_grounding_snapshot (data : List DataRow)
    (names : List String) (rows_limit : Nat) : List DataRow :=
  lastN rows_limit (data.filter (fun r =>
    (names.map lowerStr).contains (lowerStr r.student)))

/-- Snapshot rows of `prepare_general_grounding`: the whole dataset,
then `tail(rows_limit)`. -/
def prepare_general_grounding_snapshot (data : List DataRow)
    (rows_limit : Nat) : List DataRow :=
  lastN rows_limit data

/-! ## `app/api/routes.py`: the `/chat` endpoint

Session state is the dictionary the endpoint stores per session id.
The fallback dictionary built when the session store is unavailable
lacks the `compare_pair` / `multi_students` keys; both situations are
`none` fields here (the endpoint never reads those keys before
assigning them). -/

/-- One entry of `conversation_history`. -/
structure ChatMsg where
  role : String
  content : String
  deriving Repr, DecidableEq

/-- The per-session state dictionary. -/
structure SessionState where
  student : Option String
  class_id : Option String
  scope : Option String
  compare_pair : Option (String × String)
  multi_students : Option (List String)
  dissatisfaction_count : Nat
  conversation_history : List ChatMsg
  escalated : Bool
  deriving Repr, DecidableEq

/-- The empty-default session dictionary built for an unseen session id. -/
def freshState : SessionState :=
  { student := none, class_id := none, scope := none, compare_pair := none
    multi_students := none, dissatisfaction_count := 0
    conversation_history := [], escalated := false }

/-- The `ChatRequest` pydantic payload. -/
structure ChatRequest where
  message : String
  session_id : Option String
  student : Option String
  class_id : Option String
  deriving Repr, DecidableEq

/-- Comparison keywords of `simple_intent_detection`. -/
def comparisonKeywords : List String :=
  ["compare", "vs", "versus", "difference between"]

/-- Ranking keywords of `simple_intent_detection`. -/
def rankingKeywords : List String :=
  ["rank", "top", "best", "worst", "lowest", "highest"]

/-- `found_students` inside `simple_intent_detection`: the known
(lower-cased) student names that occur as substrings of the lower-cased
message, kept in vocabulary-list order. -/
def foundStudents (lower_msg : String) (students : List String) : List String :=
  students.filter (fun s => s ≠ "" && strContains lower_msg s)

/-- `found_class` inside `simple_intent_detection` (and the duplicate
detection loop of the endpoint body): the first vocabulary class id
occurring as a substring of the lower-cased message. -/
def foundClass (lower_msg : String) (classes : List String) : Option String :=
  classes.find? (fun c => c ≠ "" && strContains lower_msg c)

/-- `is_compare`: some comparison keyword occurs in the message. -/
def isCompareMsg (lower_msg : String) : Bool :=
  comparisonKeywords.any (fun kw => strContains lower_msg kw)

/-- `is_ranking`: some ranking keyword occurs in the message. -/
def isRankingMsg (lower_msg : String) : Bool :=
  rankingKeywords.any (fun kw => strContains lower_msg kw)

/-- The dictionary returned by `simple_intent_detection`. -/
structure IntentResult where
  intent : String
  students : List String
  class_id : Option String
  deriving Repr, DecidableEq

/-- `simple_intent_detection(message, students, classes)`, the nested
heuristic classifier of the chat endpoint: first-match priority chain
over (comparison keyword and at least two found students) > ranking
keyword > at least three found students > any found student > found
class > general. -/
def simple_intent_detection (message : String)
    (students classes : List String) : IntentResult :=
  let lower_msg := lowerStr message
  let found_students := foundStudents lower_msg students
  let found_class := foundClass lower_msg classes
  let is_compare := isCompareMsg lower_msg
  let is_ranking := isRankingMsg lower_msg
  let intent_type :=
    if is_compare ∧ 2 ≤ found_students.length then "compare_query"
    else if is_ranking then "ranking_query"
    else if 3 ≤ found_students.length then "multi_student_query"
    else if found_students ≠ [] then "student_query"
    else if found_class.isSome then "class_query"
    else "general_query"
  { intent := intent_type, students := found_students.take 5
    class_id := found_class }

/-- `student_hits` of the endpoint body: each known student name with
the first position at which it occurs in the lower-cased message. -/
def studentHits (lower : String) (students : List String) :
    List (String × Nat) :=
  students.filterMap (fun name =>
    if name = "" then none
    else (strFind lower name).map (fun pos => (name, pos)))

/-- Stable insertion into a list sorted by the position component. -/
def insertByPos (x : String × Nat) : List (String × Nat) →
    List (String × Nat)
  | [] => [x]
  | y :: t => if x.2 ≤ y.2 then x :: y :: t else y :: insertByPos x t

/-- Stable sort by position — Python `list.sort(key=lambda x: x[1])`. -/
def sortByPos : List (String × Nat) → List (String × Nat)
  | [] => []
  | x :: t => insertByPos x (sortByPos t)

/-- `detected_students`: hit names ordered by first occurrence position
(stable, so vocabulary order breaks ties). -/
def detectedStudents (lower : String) (students : List String) :
    List String :=
  (sortByPos (studentHits lower students)).map Prod.fst

/-- `resolve_name` of the endpoint body: identity on empty or known
names, otherwise `difflib.get_close_matches(name, known, n=1, cutoff=0.8)`
— an external fuzzy matcher, taken as the `closeMatch` parameter. -/
def resolve_name (known : List String)
    (closeMatch : String → Option String) (name : String) : Option String :=
  if name = "" ∨ known.contains name then some name
  else closeMatch name

/-- The entity bindings the endpoint resolves for one turn, plus the
derived `context_type`. -/
structure ResolvedEntities where
  student : Option String
  compare_pair : Option (String × String)
  multi_students : Option (List String)
  class_id : Option String
  context_type : String
  deriving Repr, DecidableEq

/-- Python truthiness of the optional `multi_students` list. -/
def multiTruthy : Option (List String) → Bool
  | some l => !l.isEmpty
  | none => false

/-- Lines 570–580 of `app/api/routes.py`: derive `context_type` from the
winning binding by Python truthiness, in the order compare > multi >
student > class > general. -/
def contextTypeOf (student : Option String)
    (compare_pair : Option (String × String))
    (multi_students : Option (List String))
    (class_id : Option String) : String :=
  if compare_pair.isSome then "compare"
  else if multiTruthy multi_students then "multi"
  else if pyTruthy student then "student"
  else if pyTruthy class_id then "class"
  else "general"

/-- Lines 518–580 of `app/api/routes.py`: run the intent classifier,
detect entities, resolve names from the intent, pick the winning binding
by the priority chain, and derive `context_type`. -/
def resolveEntities (knownStudents knownClasses : List String)
    (closeMatch : String → Option String)
    (state : SessionState) (req : ChatRequest) : ResolvedEntities :=
  let lower := lowerStr req.message
  let intent := simple_intent_detection req.message knownStudents knownClasses
  let detected_students := detectedStudents lower knownStudents
  let detected_class := foundClass lower knownClasses
  let class_id0 :=
    pyOr (pyOr (pyOr req.class_id intent.class_id) detected_class)
      state.class_id
  let intent_students := intent.students.map lowerStr
  let resolved :=
    ((intent_students.map (resolve_name knownStudents closeMatch)).filterMap
      id).filter (fun s => s ≠ "")
  let chosen : Option String × Option (String × String) ×
      Option (List String) × Option String :=
    if intent.intent = "compare_query" ∧ 2 ≤ resolved.length then
      (none, some (resolved.getD 0 "", resolved.getD 1 ""), none, class_id0)
    else if intent.intent = "multi_student_query" ∧ 2 ≤ resolved.length then
      (none, none, some (resolved.take 5), class_id0)
    else if intent.intent = "student_query" ∧ resolved ≠ [] then
      (resolved.head?, none, none, class_id0)
    else if detected_students ≠ [] then
      (detected_students.head?, none, none, class_id0)
    else if state.scope = some "student" then
      (state.student, none, none, class_id0)
    else if state.scope = some "class" then
      (none, none, none, state.class_id)
    else
      (none, none, none, class_id0)
  let student := chosen.1
  let compare_pair := chosen.2.1
  let multi_students := chosen.2.2.1
  let class_id1 := chosen.2.2.2
  { student := student, compare_pair := compare_pair
    multi_students := multi_students, class_id := class_id1
    context_type := contextTypeOf student compare_pair multi_students class_id1 }

/-- A call to one of the grounding builders, with the `rows_limit`
argument the endpoint passes. -/
inductive GroundingCall where
  | comparison (question student_a student_b : String) (rows_limit : Nat)
  | multi (question : String) (names : List String) (rows_limit : Nat)
  | student (question name : String) (rows_limit : Nat)
  | cls (question class_id : String) (rows_limit : Nat)
  | general (question : String) (rows_limit : Nat)
  deriving Repr, DecidableEq

/-- Lines 582–605 of `app/api/routes.py`: which grounding builder the
turn invokes, with the endpoint's literal `rows_limit` arguments.  The
student branch first fetches the student rows and leaves the
supplemental context `None` when they are empty — without falling
through to the class/general branches. -/
def chooseGrounding (hasStudentData : String → Bool) (req : ChatRequest)
    (r : ResolvedEntities) : Option GroundingCall :=
  match r.compare_pair with
  | some (a, b) => some (.comparison req.message a b 60)
  | none =>
    if multiTruthy r.multi_students then
      some (.multi req.message (r.multi_students.getD []) 80)
    else if pyTruthy r.student then
      if hasStudentData (r.student.getD "") then
        some (.student req.message (r.student.getD "") 40)
      else none
    else if pyTruthy r.class_id then
      some (.cls req.message (r.class_id.getD "") 50)
    else
      some (.general req.message 60)

/-- The `rows_limit` argument carried by a grounding call. -/
def rowsLimitOf : GroundingCall → Nat
  | .comparison _ _ _ lim => lim
  | .multi _ _ lim => lim
  | .student _ _ lim => lim
  | .cls _ _ lim => lim
  | .general _ lim => lim

/-- The `rows_limit` the chat endpoint passes for each grounding shape:
40 for a student, 50 for a class, 60 for a comparison, 80 for a multi
grounding, and 60 for the general grounding. -/
def endpointRowsLimit : GroundingCall → Nat
  | .comparison _ _ _ _ => 60
  | .multi _ _ _ => 80
  | .student _ _ _ => 40
  | .cls _ _ _ => 50
  | .general _ _ => 60

/-- The relevant row subset a grounding call snapshots from. -/
def groundingSubset (data : List DataRow) : GroundingCall → List DataRow
  | .comparison _ a b _ => data.filter (fun r =>
      lowerStr r.student == lowerStr a || lowerStr r.student == lowerStr b)
  | .multi _ names _ => data.filter (fun r =>
      (names.map lowerStr).contains (lowerStr r.student))
  | .student _ s _ => data.filter (fun r =>
      lowerStr r.student == lowerStr s)
  | .cls _ c _ => data.filter (fun r =>
      lowerStr r.class_id == lowerStr c)
  | .general _ _ => data

/-- The CSV snapshot rows produced for a grounding call, routed through
the snapshot builder that the endpoint actually invokes for that shape. -/
def groundingSnapshot (data : List DataRow) : GroundingCall → List DataRow
  | .comparison _ a b lim =>
    prepare_comparison_grounding_snapshot data a b lim
  | .multi _ names lim => prepare_multi_grounding_snapshot data names lim
  | .student _ s lim =>
    prepare_grounding_snapshot ((get_student_data s data).getD []) lim
  | .cls _ c lim => prepare_grounding_snapshot (get_class_summary c data) lim
  | .general _ lim => prepare_general_grounding_snapshot data lim

/-- The external effects and process-wide inputs one chat turn depends
on: the lazily-loaded vocabularies, the fuzzy matcher, which students
have data rows, availability of the session store, the transcript-write
and SMTP outcomes of a potential escalation, the timestamp and uuid the
turn would mint, and the LLM completion. -/
structure ChatEnv where
  knownStudents : List String
  knownClasses : List String
  closeMatch : String → Option String
  hasStudentData : String → Bool
  sessionStoreAvailable : Bool
  fileCreated : Bool
  smtpConfigured : Bool
  smtpSendOk : Bool
  timestamp : String
  freshUuid : String
  llmReply : String

/-- The JSON payload returned on an escalation turn. -/
structure EscalationResponse where
  session_id : String
  reply : String
  escalated : Bool
  ticket_created : Bool
  ticket_id : Option String
  deriving Repr, DecidableEq

/-- The JSON payload of a chat turn: the escalation shape, or the plain
`session_id`/`reply` shape. -/
inductive ChatOutcome where
  | escalation (resp : EscalationResponse)
  | normal (session_id reply : String)
  deriving Repr, DecidableEq

/-- Everything observable about one chat turn: the returned payload,
the grounding call sent to the LLM (none on escalation turns and when a
student binding has no data rows), and the state written to the session
store (`none` when the store is unavailable). -/
structure TurnOutput where
  outcome : ChatOutcome
  grounding : Option GroundingCall
  saved : Option SessionState
  deriving Repr, DecidableEq

/-- The user-facing reply of a successful escalation, which embeds the
ticket id. -/
def escalationSuccessMessage (ticketId : String) : String :=
  "I understand this isn" ++ apos ++ "t meeting your needs. " ++
  "I" ++ apos ++ "ve connected you with our support team " ++
  "who will provide more personalized assistance. " ++
  "Your ticket ID is: " ++ ticketId ++ ". " ++
  "They" ++ apos ++ "ll reach out to you shortly at your registered " ++
  "email address."

/-- The user-facing reply of a failed escalation — no ticket id. -/
def escalationFailureMessage : String :=
  "I understand this isn" ++ apos ++ "t meeting your needs. " ++
  "I" ++ apos ++ "ve attempted to connect you with our support team, " ++
  "but encountered a technical issue. " ++
  "Please contact the support team for follow-up. " ++
  "and reference your session for faster assistance."

/-- One full execution of `chat_endpoint` (lines 372–637 of
`app/api/routes.py`): load or initialize the session, append the user
message, count dissatisfaction, either run the escalation branch and
return its payload, or resolve entities, choose a grounding, call the
LLM, trim the history to the last 50 entries and persist the updated
bindings. -/
def chatTurn (env : ChatEnv) (stored : Option SessionState)
    (req : ChatRequest) : TurnOutput :=
  let sid := match req.session_id with
    | some s => if s = "" then env.freshUuid else s
    | none => env.freshUuid
  let state0 :=
    if env.sessionStoreAvailable then stored.getD freshState else freshState
  let hist1 := state0.conversation_history ++ [⟨"user", req.message⟩]
  let dcount := state0.dissatisfaction_count +
    (if detect_dissatisfaction req.message then 1 else 0)
  if ESCALATION_THRESHOLD ≤ dcount ∧ state0.escalated = false then
    let ticketId := "TICKET-" ++ sid ++ "-" ++ env.timestamp
    let tr := create_support_ticket env.fileCreated env.smtpConfigured
      env.smtpSendOk ticketId
    let savedState := { state0 with
      conversation_history := hist1
      dissatisfaction_count := dcount
      escalated := true }
    let reply := if tr.success then
        escalationSuccessMessage (tr.ticket_id.getD "None")
      else escalationFailureMessage
    { outcome := .escalation
        { session_id := sid
          reply := reply
          escalated := true
          ticket_created := tr.success
          ticket_id := if tr.success then tr.ticket_id else none }
      grounding := none
      saved := if env.sessionStoreAvailable then some savedState else none }
  else
    let r := resolveEntities env.knownStudents env.knownClasses
      env.closeMatch state0 req
    let g := chooseGrounding env.hasStudentData req r
    let hist2 := hist1 ++ [⟨"assistant", env.llmReply⟩]
    let hist3 := if 50 < hist2.length then lastN 50 hist2 else hist2
    let newState : SessionState :=
      { student := if r.context_type = "student" then r.student
          else state0.student
        class_id := if r.context_type = "class" then r.class_id
          else state0.class_id
        scope := some r.context_type
        compare_pair := r.compare_pair
        multi_students :=
          if multiTruthy r.multi_students then r.multi_students else none
        dissatisfaction_count := dcount
        conversation_history := hist3
        escalated := state0.escalated }
    { outcome := .normal sid env.llmReply
      grounding := g
      saved := if env.sessionStoreAvailable then some newState else none }

/-- Whether a turn ran the escalation branch — exactly when
`create_support_ticket` was invoked (one delivery attempt). -/
def isEscalationTurn (out : TurnOutput) : Bool :=
  match out.outcome with
  | .escalation _ => true
  | .normal _ _ => false

/-- The session-store content after a turn: the written state, or the
previous content when nothing was written. -/
def nextStore (store : Option SessionState) (out : TurnOutput) :
    Option SessionState :=
  match out.saved with
  | some s => some s
  | none => store

/-- The session-store content after a sequence of turns for one session
id (each turn carries its own external-effect outcomes). -/
def runTurns (store : Option SessionState) :
    List (ChatEnv × ChatRequest) → Option SessionState
  | [] => store
  | (env, req) :: rest =>
    runTurns (nextStore store (chatTurn env store req)) rest

/-- How many turns of a sequence run the escalation branch (attempt a
support-ticket delivery). -/
def escalationAttempts (store : Option SessionState) :
    List (ChatEnv × ChatRequest) → Nat
  | [] => 0
  | (env, req) :: rest =>
    let out := chatTurn env store req
    (if isEscalationTurn out then 1 else 0) +
      escalationAttempts (nextStore store out) rest

/-- Whether the session store holds a state marked escalated. -/
def storedEscalated : Option SessionState → Bool
  | some s => s.escalated
  | none => false

/-- The session state a turn starts from: the stored state (or the
empty defaults) when the store is up, else the ephemeral fresh state. -/
def loadedState (env : ChatEnv) (stored : Option SessionState) :
    SessionState :=
  if env.sessionStoreAvailable then stored.getD freshState else freshState

/-- The entities one turn resolves, starting from the loaded state. -/
def turnResolved (env : ChatEnv) (stored : Option SessionState)
    (req : ChatRequest) : ResolvedEntities :=
  resolveEntities env.knownStudents env.knownClasses env.closeMatch
    (loadedState env stored) req

/-! ## Concrete fixtures used by the closed instance theorems -/

/-- A standard environment: vocabularies loaded, session store up,
transcript write succeeds, SMTP configured but the send fails. -/
def envStd : ChatEnv :=
  { knownStudents := ["adam", "aisha"], knownClasses := ["4b"]
    closeMatch := fun _ => none, hasStudentData := fun _ => true
    sessionStoreAvailable := true, fileCreated := true
    smtpConfigured := true, smtpSendOk := false
    timestamp := "t0", freshUuid := "u1", llmReply := "ok" }

/-- `envStd` with the session store down (Redis unavailable at startup). -/
def envNoStore : ChatEnv := { envStd with sessionStoreAvailable := false }

/-- A dissatisfied message. -/
def reqFrustrated : ChatRequest :=
  { message := "frustrated", session_id := some "s1"
    student := none, class_id := none }

/-- A single-student question. -/
def reqAisha : ChatRequest :=
  { message := "how is aisha doing", session_id := some "s1"
    student := none, class_id := none }

/-- A question naming no entity. -/
def reqHello : ChatRequest :=
  { message := "hello there", session_id := some "s1"
    student := none, class_id := none }

/-- A comparison question naming two known students. -/
def reqCompare : ChatRequest :=
  { message := "Compare Aisha and Adam", session_id := some "s1"
    student := none, class_id := none }

/-- A follow-up question naming no entity. -/
def reqFollowup : ChatRequest :=
  { message := "how is she doing lately", session_id := none
    student := none, class_id := none }

/-- A session two dissatisfaction signals in. -/
def dissatisfiedTwiceState : SessionState :=
  { freshState with dissatisfaction_count := 2 }

/-- A session with a full 50-entry history and two dissatisfaction
signals. -/
def histState50 : SessionState :=
  { freshState with
    dissatisfaction_count := 2
    conversation_history := List.replicate 50 ⟨"user", "x"⟩ }

/-- A session whose last turn was a comparison (stale multi binding
kept alongside, as the spec describes). -/
def compareState : SessionState :=
  { freshState with
    scope := some "compare"
    compare_pair := some ("aisha", "adam")
    multi_students := some ["aisha", "adam", "leo"] }

/-- A session focused on student aisha. -/
def followupState : SessionState :=
  { freshState with scope := some "student", student := some "aisha" }

/-- A session that has already escalated. -/
def escalatedState : SessionState :=
  { freshState with escalated := true, dissatisfaction_count := 7 }

/-- An 80-row dataset. -/
def rows80 : List DataRow :=
  List.replicate 80 { student := "s", class_id := "c", score := 0 }

/-- The state persisted by `chatTurn envStd (some compareState) reqAisha`
(and equally from `freshState`): the student-query turn binds aisha and
clears the pair/multi fields. -/
def savedAisha : SessionState :=
  { student := some "aisha", class_id := none, scope := some "student"
    compare_pair := none, multi_students := none
    dissatisfaction_count := 0
    conversation_history :=
      [⟨"user", "how is aisha doing"⟩, ⟨"assistant", "ok"⟩]
    escalated := false }

/-- The escalation payload `chatTurn envStd (some dissatisfiedTwiceState)
reqFrustrated` returns. -/
def escRespStd : EscalationResponse :=
  { session_id := "s1"
    reply := escalationSuccessMessage "TICKET-s1-t0"
    escalated := true
    ticket_created := true
    ticket_id := some "TICKET-s1-t0" }

/-- The fields of `get_student_stats` output other than the echoed
query name. -/
def statsData (st : StudentStats) :
    Bool × Option Nat × Option ℚ × Option ℚ × Option ℚ × Option ℚ :=
  (st.exists_, st.total_sessions, st.average_score, st.median_score,
   st.best_score, st.worst_score)

/-! ## General lemmas -/

theorem lastN_length (n : Nat) (l : List α) :
    (lastN n l).length = min n l.length := by
  simp [lastN]
  omega

theorem lastN_of_le {n : Nat} {l : List α} (h : l.length ≤ n) :
    lastN n l = l := by
  simp [lastN, Nat.sub_eq_zero_of_le h]

/-! ## Intent classification (C7) -/

/-- C7: intent classification is a pure function of the message and the
detected students/class, returning exactly one intent by first-match
priority: `compare_query` when a comparison keyword is present and at
least two students are found; else `ranking_query` on a ranking keyword;
else `multi_student_query` on at least three found students; else
`student_query` on at least one; else `class_query` on a found class;
else `general_query`. -/
theorem simple_intent_priority_spec (message : String)
    (students classes : List String) :
    ((simple_intent_detection message students classes).intent = "compare_query" ↔
      (isCompareMsg (lowerStr message) = true ∧
       2 ≤ (foundStudents (lowerStr message) students).length)) ∧
    ((simple_intent_detection message students classes).intent = "ranking_query" ↔
      (isRankingMsg (lowerStr message) = true ∧
       ¬(isCompareMsg (lowerStr message) = true ∧
         2 ≤ (foundStudents (lowerStr message) students).length))) ∧
    ((simple_intent_detection message students classes).intent = "multi_student_query" ↔
      (3 ≤ (foundStudents (lowerStr message) students).length ∧
       isRankingMsg (lowerStr message) = false ∧
       ¬(isCompareMsg (lowerStr message) = true ∧
         2 ≤ (foundStudents (lowerStr message) students).length))) ∧
    ((simple_intent_detection message students classes).intent = "student_query" ↔
      (1 ≤ (foundStudents (lowerStr message) students).length ∧
       (foundStudents (lowerStr message) students).length ≤ 2 ∧
       isRankingMsg (lowerStr message) = false ∧
       ¬(isCompareMsg (lowerStr message) = true ∧
         2 ≤ (foundStudents (lowerStr message) students).length))) ∧
    ((simple_intent_detection message students classes).intent = "class_query" ↔
      ((foundStudents (lowerStr message) students).length = 0 ∧
       (foundClass (lowerStr message) classes).isSome = true ∧
       isRankingMsg (lowerStr message) = false)) ∧
    ((simple_intent_detection message students classes).intent = "general_query" ↔
      ((foundStudents (lowerStr message) students).length = 0 ∧
       (foundClass (lowerStr message) classes).isSome = false ∧
       isRankingMsg (lowerStr message) = false)) ∧
    (simple_intent_detection message students classes).students =
      (foundStudents (lowerStr message) students).take 5 ∧
    (simple_intent_detection message students classes).class_id =
      foundClass (lowerStr message) classes := by
  unfold simple_intent_detection
  dsimp only
  split_ifs with h1 h2 h3 h4 h5 <;>
    refine ⟨?_, ?_, ?_, ?_, ?_, ?_, rfl, rfl⟩ <;>
      simp_all [← List.length_eq_zero, ← List.length_pos] <;>
      (intros; first | rfl | omega)

/-! ## Escalation gate and idempotence (C4) -/

/-- The escalation branch runs exactly when the updated dissatisfaction
count reaches the threshold and the loaded session is not yet escalated. -/
theorem isEscalationTurn_iff (env : ChatEnv) (stored : Option SessionState)
    (req : ChatRequest) :
    isEscalationTurn (chatTurn env stored req) = true ↔
      (ESCALATION_THRESHOLD ≤
        (if env.sessionStoreAvailable then stored.getD freshState
          else freshState).dissatisfaction_count +
          (if detect_dissatisfaction req.message then 1 else 0) ∧
       (if env.sessionStoreAvailable then stored.getD freshState
          else freshState).escalated = false) := by
  unfold chatTurn
  dsimp only
  split_ifs with h1 h2 h3 h4 <;> simp_all [isEscalationTurn]

/-- A turn starting from an escalated stored session never runs the
escalation branch, and leaves the store escalated. -/
theorem storedEscalated_no_attempt (env : ChatEnv)
    (stored : Option SessionState) (req : ChatRequest)
    (h : storedEscalated stored = true) :
    isEscalationTurn (chatTurn env stored req) = false ∧
    storedEscalated (nextStore stored (chatTurn env stored req)) = true := by
  obtain ⟨s, rfl⟩ : ∃ s, stored = some s := by
    cases stored <;> simp_all [storedEscalated]
  have hesc : s.escalated = true := by simpa [storedEscalated] using h
  by_cases hav : env.sessionStoreAvailable <;>
    unfold chatTurn <;>
    dsimp only <;>
    split_ifs <;>
    simp_all [isEscalationTurn, nextStore, storedEscalated, freshState,
      ESCALATION_THRESHOLD]

/-- A turn that runs the escalation branch leaves the store escalated. -/
theorem escalation_marks_store (env : ChatEnv)
    (stored : Option SessionState) (req : ChatRequest)
    (h : isEscalationTurn (chatTurn env stored req) = true) :
    storedEscalated (nextStore stored (chatTurn env stored req)) = true := by
  by_cases hav : env.sessionStoreAvailable <;>
    unfold chatTurn at h ⊢ <;>
    dsimp only at h ⊢ <;>
    split_ifs at h ⊢ <;>
    simp_all [isEscalationTurn, nextStore, storedEscalated, freshState,
      ESCALATION_THRESHOLD]

/-- Once the store is escalated, no later turn attempts a delivery. -/
theorem attempts_zero_of_storedEscalated :
    ∀ (turns : List (ChatEnv × ChatRequest)) (store : Option SessionState),
      storedEscalated store = true → escalationAttempts store turns = 0
  | [], _, _ => rfl
  | (env, req) :: rest, store, h => by
    have h2 := storedEscalated_no_attempt env store req h
    simp only [escalationAttempts, h2.1, if_false]
    simpa using attempts_zero_of_storedEscalated rest _ h2.2

/-- Any run of turns makes at most one delivery attempt. -/
theorem attempts_le_one :
    ∀ (turns : List (ChatEnv × ChatRequest)) (store : Option SessionState),
      escalationAttempts store turns ≤ 1
  | [], _ => by simp [escalationAttempts]
  | (env, req) :: rest, store => by
    by_cases h : isEscalationTurn (chatTurn env store req) = true
    · have h2 := escalation_marks_store env store req h
      simp [escalationAttempts, h,
        attempts_zero_of_storedEscalated rest _ h2]
    · simp only [escalationAttempts, h, Bool.false_eq_true, if_false]
      simpa using attempts_le_one rest _

/-- C4: escalation fires exactly when the dissatisfaction count has
reached 3 and the session is not yet escalated; once a session is
escalated, no later turn of that session attempts another support-ticket
delivery, and every turn sequence makes at most one attempt. -/
theorem escalation_gate_and_idempotence :
    (∀ (env : ChatEnv) (stored : Option SessionState) (req : ChatRequest),
      isEscalationTurn (chatTurn env stored req) = true ↔
        (ESCALATION_THRESHOLD ≤
          (if env.sessionStoreAvailable then stored.getD freshState
            else freshState).dissatisfaction_count +
            (if detect_dissatisfaction req.message then 1 else 0) ∧
         (if env.sessionStoreAvailable then stored.getD freshState
            else freshState).escalated = false)) ∧
    (∀ (store : Option SessionState) (turns : List (ChatEnv × ChatRequest)),
      storedEscalated store = true → escalationAttempts store turns = 0) ∧
    (∀ (store : Option SessionState) (turns : List (ChatEnv × ChatRequest)),
      escalationAttempts store turns ≤ 1) :=
  ⟨isEscalationTurn_iff,
   fun store turns h => attempts_zero_of_storedEscalated turns store h,
   fun store turns => attempts_le_one turns store⟩

/-- Closed instance of `escalation_gate_and_idempotence`: an escalated
session absorbs a further dissatisfied turn without a second attempt. -/
theorem escalation_gate_and_idempotence_witness :
    storedEscalated (some escalatedState) = true ∧
    escalationAttempts (some escalatedState)
      [(envStd, reqFrustrated), (envStd, reqFrustrated)] = 0 ∧
    escalationAttempts (some dissatisfiedTwiceState)
      [(envStd, reqFrustrated), (envStd, reqFrustrated)] ≤ 1 :=
  ⟨by decide,
   escalation_gate_and_idempotence.2.1 (some escalatedState)
     [(envStd, reqFrustrated), (envStd, reqFrustrated)] (by decide),
   escalation_gate_and_idempotence.2.2 (some dissatisfiedTwiceState)
     [(envStd, reqFrustrated), (envStd, reqFrustrated)]⟩

/-! ## Fallback mode without a session store (C10) -/

/-- With the session store down, a turn never runs the escalation
branch: the state is freshly initialized, so the count at the gate is at
most one. -/
theorem fallback_turn_normal (env : ChatEnv) (stored : Option SessionState)
    (req : ChatRequest) (hav : env.sessionStoreAvailable = false) :
    isEscalationTurn (chatTurn env stored req) = false := by
  unfold chatTurn
  dsimp only
  split_ifs <;>
    simp_all [isEscalationTurn, freshState, ESCALATION_THRESHOLD]

/-- With the session store down on every turn, no sequence of turns
makes any delivery attempt. -/
theorem fallback_attempts_zero :
    ∀ (turns : List (ChatEnv × ChatRequest)) (store : Option SessionState),
      (∀ p ∈ turns, (Prod.fst p).sessionStoreAvailable = false) →
      escalationAttempts store turns = 0
  | [], _, _ => rfl
  | (env, req) :: rest, store, h => by
    have h1 : env.sessionStoreAvailable = false := h (env, req) (by simp)
    simp only [escalationAttempts, fallback_turn_normal env store req h1,
      if_false]
    simpa using fallback_attempts_zero rest _ (fun p hp => h p (by simp [hp]))

/-- C10: when the session store is unavailable, each turn starts from the
fresh ephemeral state, the count at the escalation gate is at most one —
below the threshold of 3 — so the escalation branch is unreachable and
no support ticket is ever created in fallback mode. -/
theorem fallback_mode_never_escalates :
    (∀ (env : ChatEnv) (stored : Option SessionState) (req : ChatRequest),
      env.sessionStoreAvailable = false →
      isEscalationTurn (chatTurn env stored req) = false ∧
      freshState.dissatisfaction_count +
        (if detect_dissatisfaction req.message then 1 else 0) ≤ 1 ∧
      freshState.dissatisfaction_count +
        (if detect_dissatisfaction req.message then 1 else 0) <
        ESCALATION_THRESHOLD) ∧
    (∀ (store : Option SessionState) (turns : List (ChatEnv × ChatRequest)),
      (∀ p ∈ turns, (Prod.fst p).sessionStoreAvailable = false) →
      escalationAttempts store turns = 0) :=
  ⟨fun env stored req hav =>
    ⟨fallback_turn_normal env stored req hav,
     by simp [freshState]; split_ifs <;> omega,
     by simp [freshState, ESCALATION_THRESHOLD]; split_ifs <;> omega⟩,
   fun store turns h => fallback_attempts_zero turns store h⟩

/-- Closed instance of `fallback_mode_never_escalates`: even a stored
escalation-ready session produces no attempt when the store is down. -/
theorem fallback_mode_never_escalates_witness :
    envNoStore.sessionStoreAvailable = false ∧
    isEscalationTurn (chatTurn envNoStore (some dissatisfiedTwiceState)
      reqFrustrated) = false ∧
    escalationAttempts (some dissatisfiedTwiceState)
      [(envNoStore, reqFrustrated), (envNoStore, reqFrustrated),
       (envNoStore, reqFrustrated)] = 0 :=
  ⟨by decide,
   (fallback_mode_never_escalates.1 envNoStore (some dissatisfiedTwiceState)
     reqFrustrated (by decide)).1,
   fallback_mode_never_escalates.2 (some dissatisfiedTwiceState)
     [(envNoStore, reqFrustrated), (envNoStore, reqFrustrated),
      (envNoStore, reqFrustrated)] (by decide)⟩

/-! ## Follow-up carry-forward resolution (C8) -/

/-- C8: for a session whose stored scope is `student` with a bound
student, a message in which no known student name occurs (and hence
with no explicit entity from the classifier or resolver) resolves to
`context_type = "student"` bound to the carried-forward student, per the
priority chain ending in the session's carried-forward scope. -/
theorem followup_carry_forward (ks kc : List String)
    (cm : String → Option String) (state : SessionState) (req : ChatRequest)
    (name : String)
    (hscope : state.scope = some "student")
    (hstu : state.student = some name)
    (hname : name ≠ "")
    (hnone : ∀ s ∈ ks, strContains (lowerStr req.message) s = false) :
    (resolveEntities ks kc cm state req).context_type = "student" ∧
    (resolveEntities ks kc cm state req).student = some name := by
  have hfound : foundStudents (lowerStr req.message) ks = [] := by
    apply List.filter_eq_nil_iff.mpr
    intro a ha
    simp [hnone a ha]
  have hdet : detectedStudents (lowerStr req.message) ks = [] := by
    unfold detectedStudents
    have hh : studentHits (lowerStr req.message) ks = [] := by
      apply List.filterMap_eq_nil_iff.mpr
      intro a ha
      by_cases he : a = ""
      · simp [he]
      · have hc := hnone a ha
        simp only [strContains] at hc
        cases hsf : strFind (lowerStr req.message) a
        · simp [he, hsf]
        · rw [hsf] at hc; simp at hc
    rw [hh]
    rfl
  have hint : (simple_intent_detection req.message ks kc).students = [] := by
    unfold simple_intent_detection
    dsimp only
    rw [hfound]
    rfl
  unfold resolveEntities
  dsimp only
  rw [hint, hdet]
  simp only [List.map_nil, List.filterMap_nil, List.filter_nil,
    List.length_nil, List.take_nil]
  rw [if_neg (by simp), if_neg (by simp), if_neg (by simp),
    if_neg (by simp), if_pos hscope]
  simp [contextTypeOf, pyTruthy, multiTruthy, hstu, hname]

/-- Closed instance of `followup_carry_forward`: scope student "aisha",
message "how is she doing lately" containing no known name. -/
theorem followup_carry_forward_witness :
    followupState.scope = some "student" ∧
    followupState.student = some "aisha" ∧
    (∀ s ∈ ["adam", "aisha"],
      strContains (lowerStr reqFollowup.message) s = false) ∧
    ((resolveEntities ["adam", "aisha"] ["4b"] (fun _ => none)
        followupState reqFollowup).context_type = "student" ∧
     (resolveEntities ["adam", "aisha"] ["4b"] (fun _ => none)
        followupState reqFollowup).student = some "aisha") :=
  ⟨rfl, rfl, by decide,
   followup_carry_forward ["adam", "aisha"] ["4b"] (fun _ => none)
     followupState reqFollowup "aisha" rfl rfl (by decide) (by decide)⟩

/-! ## Escalation payload and ticket fields (C1) -/

/-- C1 (amended): the escalation payload always has `escalated = true`,
and its `ticket_created`/`ticket_id` fields mirror the success flag of
`create_support_ticket`, which reflects only whether the transcript
artifact was created — not whether the notification delivery succeeded.
When transcript creation fails the payload honestly carries
`ticket_created = false`, `ticket_id = null` and the failure reply
without a ticket id. -/
theorem escalation_ticket_fields_spec (env : ChatEnv)
    (stored : Option SessionState) (req : ChatRequest)
    (resp : EscalationResponse)
    (h : (chatTurn env stored req).outcome = ChatOutcome.escalation resp) :
    resp.escalated = true ∧
    resp.ticket_created = env.fileCreated ∧
    (resp.ticket_id = none ↔ env.fileCreated = false) ∧
    (env.fileCreated = false →
      resp.ticket_created = false ∧ resp.ticket_id = none ∧
      resp.reply = escalationFailureMessage) := by
  by_cases hf : env.fileCreated = true
  · simp only [chatTurn, hf, create_support_ticket, if_true] at h
    split_ifs at h <;>
      first
      | (rw [ChatOutcome.escalation.injEq] at h
         subst h
         simp [hf])
      | simp at h
  · have hf2 : env.fileCreated = false := by simpa using hf
    simp only [chatTurn, hf2, create_support_ticket, Bool.false_eq_true,
      if_false] at h
    split_ifs at h <;>
      first
      | (rw [ChatOutcome.escalation.injEq] at h
         subst h
         simp [hf2])
      | simp at h

set_option maxRecDepth 4096 in
/-- Closed instance of `escalation_ticket_fields_spec`. -/
theorem escalation_ticket_fields_spec_witness :
    (chatTurn envStd (some dissatisfiedTwiceState) reqFrustrated).outcome =
      ChatOutcome.escalation escRespStd ∧
    (escRespStd.escalated = true ∧
     escRespStd.ticket_created = envStd.fileCreated ∧
     (escRespStd.ticket_id = none ↔ envStd.fileCreated = false) ∧
     (envStd.fileCreated = false →
       escRespStd.ticket_created = false ∧ escRespStd.ticket_id = none ∧
       escRespStd.reply = escalationFailureMessage)) :=
  ⟨by decide,
   escalation_ticket_fields_spec envStd (some dissatisfiedTwiceState)
     reqFrustrated escRespStd (by decide)⟩

set_option maxRecDepth 4096 in
/-- C1 (counterexample): with SMTP configured and the send failing, the
notification delivery fails (`send_support_ticket_email` is `false` and
the ticket records `email_sent = false`), yet the returned payload still
carries `ticket_created = true` and the ticket id — the payload tracks
transcript creation, not delivery. -/
theorem escalation_smtp_failure_counterexample :
    send_support_ticket_email true false = false ∧
    (create_support_ticket true true false "TICKET-s1-t0").email_sent =
      some false ∧
    envStd.smtpConfigured = true ∧ envStd.smtpSendOk = false ∧
    (chatTurn envStd (some dissatisfiedTwiceState) reqFrustrated).outcome =
      ChatOutcome.escalation escRespStd ∧
    escRespStd.ticket_created = true ∧
    escRespStd.ticket_id = some "TICKET-s1-t0" := by decide

/-! ## Session-state frame effect of a turn (C2) -/

/-- When `contextTypeOf` names a compare context, the pair is present. -/
theorem contextTypeOf_of_isSome {s : Option String}
    {cp : Option (String × String)} {ms : Option (List String)}
    {cid : Option String} (h : cp.isSome = true) :
    contextTypeOf s cp ms cid = "compare" := by
  simp [contextTypeOf, h]

/-- A turn never resolves both a compare pair and a multi set. -/
theorem resolveEntities_excl (ks kc : List String)
    (cm : String → Option String) (state : SessionState)
    (req : ChatRequest) :
    (resolveEntities ks kc cm state req).compare_pair = none ∨
    (resolveEntities ks kc cm state req).multi_students = none := by
  unfold resolveEntities
  dsimp only
  split_ifs <;> simp

/-- The resolved context type is derived from the resolved bindings. -/
theorem resolveEntities_context (ks kc : List String)
    (cm : String → Option String) (state : SessionState)
    (req : ChatRequest) :
    (resolveEntities ks kc cm state req).context_type =
      contextTypeOf (resolveEntities ks kc cm state req).student
        (resolveEntities ks kc cm state req).compare_pair
        (resolveEntities ks kc cm state req).multi_students
        (resolveEntities ks kc cm state req).class_id := rfl

/-- If the winning context is not `compare`, no pair was resolved. -/
theorem resolveEntities_compare_none
    (ks kc : List String) (cm : String → Option String)
    (state : SessionState) (req : ChatRequest)
    (h : (resolveEntities ks kc cm state req).context_type ≠ "compare") :
    (resolveEntities ks kc cm state req).compare_pair = none := by
  by_contra hne
  exact h (by
    rw [resolveEntities_context]
    exact contextTypeOf_of_isSome (Option.isSome_iff_ne_none.mpr hne))

/-- If the winning context is not `multi`, the stored multi field is
cleared (the update writes `None`). -/
theorem resolveEntities_multi_cleared
    (ks kc : List String) (cm : String → Option String)
    (state : SessionState) (req : ChatRequest)
    (h : (resolveEntities ks kc cm state req).context_type ≠ "multi") :
    (if multiTruthy (resolveEntities ks kc cm state req).multi_students then
      (resolveEntities ks kc cm state req).multi_students else none) =
      none := by
  by_cases hm : multiTruthy (resolveEntities ks kc cm state req).multi_students
  · exfalso
    apply h
    rw [resolveEntities_context]
    rcases resolveEntities_excl ks kc cm state req with hcp | hms
    · simp [contextTypeOf, hcp, hm]
    · rw [hms] at hm
      simp [multiTruthy] at hm
  · simp [hm]

/-- C2 (amended): at the end of a non-escalation turn, scope is set to
the winning context type; the `student` and `class_id` bindings are
overwritten only when their context wins and are otherwise retained;
but `compare_pair` and `multi_students` are overwritten on every turn —
set to the turn's resolved value when present and cleared to `None`
otherwise (they are not retained). -/
theorem session_state_update_spec (env : ChatEnv)
    (stored : Option SessionState) (req : ChatRequest)
    (s : SessionState) (sid reply : String)
    (hn : (chatTurn env stored req).outcome = ChatOutcome.normal sid reply)
    (hs : (chatTurn env stored req).saved = some s) :
    s.scope = some (turnResolved env stored req).context_type ∧
    s.student = (if (turnResolved env stored req).context_type = "student"
      then (turnResolved env stored req).student
      else (loadedState env stored).student) ∧
    s.class_id = (if (turnResolved env stored req).context_type = "class"
      then (turnResolved env stored req).class_id
      else (loadedState env stored).class_id) ∧
    s.compare_pair = (turnResolved env stored req).compare_pair ∧
    ((turnResolved env stored req).context_type ≠ "compare" →
      s.compare_pair = none) ∧
    ((turnResolved env stored req).context_type ≠ "multi" →
      s.multi_students = none) ∧
    s.escalated = (loadedState env stored).escalated ∧
    s.dissatisfaction_count =
      (loadedState env stored).dissatisfaction_count +
        (if detect_dissatisfaction req.message then 1 else 0) := by
  by_cases hgate :
      (ESCALATION_THRESHOLD ≤
        (if env.sessionStoreAvailable = true then stored.getD freshState
          else freshState).dissatisfaction_count +
          (if detect_dissatisfaction req.message = true then 1 else 0) ∧
       (if env.sessionStoreAvailable = true then stored.getD freshState
          else freshState).escalated = false)
  · simp only [chatTurn] at hn
    rw [if_pos hgate] at hn
    simp at hn
  · simp only [chatTurn] at hs
    rw [if_neg hgate] at hs
    dsimp only at hs
    rw [Option.ite_none_right_eq_some, Option.some_inj] at hs
    obtain ⟨hav, hs2⟩ := hs
    subst hs2
    refine ⟨rfl, rfl, rfl, rfl, ?_, ?_, rfl, rfl⟩
    · intro hc
      exact resolveEntities_compare_none _ _ _ _ _ hc
    · intro hc
      exact resolveEntities_multi_cleared _ _ _ _ _ hc

set_option maxRecDepth 8192 in
/-- Closed instance of `session_state_update_spec`. -/
theorem session_state_update_spec_witness :
    (chatTurn envStd (some compareState) reqAisha).outcome =
      ChatOutcome.normal "s1" "ok" ∧
    (chatTurn envStd (some compareState) reqAisha).saved =
      some savedAisha ∧
    savedAisha.compare_pair = none ∧
    savedAisha.multi_students = none :=
  ⟨by decide, by decide,
   (session_state_update_spec envStd (some compareState) reqAisha
     savedAisha "s1" "ok" (by decide) (by decide)).2.2.2.2.1 (by decide),
   (session_state_update_spec envStd (some compareState) reqAisha
     savedAisha "s1" "ok" (by decide) (by decide)).2.2.2.2.2.1 (by decide)⟩

set_option maxRecDepth 8192 in
/-- C2 (counterexample): a session whose stored `compare_pair` and
`multi_students` hold previous-turn values runs a student-context turn;
the persisted state has both fields cleared to `None`, not retained. -/
theorem session_binding_cleared_counterexample :
    compareState.compare_pair = some ("aisha", "adam") ∧
    compareState.multi_students = some ["aisha", "adam", "leo"] ∧
    (chatTurn envStd (some compareState) reqAisha).saved =
      some savedAisha ∧
    savedAisha.scope = some "student" ∧
    savedAisha.compare_pair = none ∧
    savedAisha.multi_students = none := by decide

/-! ## Compare-pair ordering (C3) -/

/-- On a lower-cased vocabulary, intent-student resolution is the
identity: every found name is a known, non-empty, already-lower-cased
string, so `resolve_name` returns it unchanged and no filter drops it. -/
theorem resolved_from_intent_id (ks : List String)
    (cm : String → Option String)
    (hlow : ∀ s ∈ ks, lowerStr s = s) :
    ∀ l : List String, (∀ x ∈ l, x ∈ ks ∧ x ≠ "") →
      (((l.map lowerStr).map (resolve_name ks cm)).filterMap id).filter
        (fun s => s ≠ "") = l
  | [], _ => rfl
  | x :: t, h => by
    have hx := h x (by simp)
    have hlx : lowerStr x = x := hlow x hx.1
    have hcont : ks.contains x = true := by
      simpa [List.contains] using List.elem_eq_true_of_mem hx.1
    simp only [List.map_cons, hlx]
    rw [resolve_name, if_pos (Or.inr hcont)]
    simp only [List.filterMap_cons, id]
    rw [List.filter_cons_of_pos (by simpa using hx.2)]
    rw [resolved_from_intent_id ks cm hlow t (fun y hy => h y (by simp [hy]))]

/-- C3 (amended): whenever a turn resolves a compare pair, the pair is
the first two entries of the found-students list, which enumerates the
known-student vocabulary in *vocabulary order* (the order `_load_entities`
lists them) — not by first character position of occurrence in the
message.  The vocabulary is lower-cased, as `_load_entities` guarantees. -/
theorem compare_pair_vocab_order (ks kc : List String)
    (cm : String → Option String) (state : SessionState)
    (req : ChatRequest) (a b : String)
    (hlow : ∀ s ∈ ks, lowerStr s = s)
    (hp : (resolveEntities ks kc cm state req).compare_pair = some (a, b)) :
    ∃ rest, foundStudents (lowerStr req.message) ks = a :: b :: rest := by
  have hmem : ∀ x ∈ (foundStudents (lowerStr req.message) ks).take 5,
      x ∈ ks ∧ x ≠ "" := by
    intro x hxm
    have hxf := List.take_subset 5 _ hxm
    rw [foundStudents, List.mem_filter] at hxf
    refine ⟨hxf.1, ?_⟩
    have := hxf.2
    simp only [Bool.and_eq_true, decide_eq_true_eq] at this
    exact this.1
  have hres := resolved_from_intent_id ks cm hlow
    ((foundStudents (lowerStr req.message) ks).take 5) hmem
  unfold resolveEntities at hp
  dsimp only at hp
  have hstu : (simple_intent_detection req.message ks kc).students =
      (foundStudents (lowerStr req.message) ks).take 5 := rfl
  rw [hstu, hres] at hp
  split_ifs at hp with h1 h2 h3 h4 h5 h6 <;> simp_all
  obtain ⟨-, hlen⟩ := h1
  obtain ⟨hp0, hp1⟩ := hp
  cases hfe : foundStudents (lowerStr req.message) ks with
  | nil => rw [hfe] at hlen; simp at hlen
  | cons x t =>
    cases t with
    | nil => rw [hfe] at hlen; simp at hlen
    | cons y r =>
      rw [hfe] at hp0 hp1
      simp at hp0 hp1
      exact ⟨r, by rw [hp0, hp1]⟩

set_option maxRecDepth 8192 in
/-- Closed instance of `compare_pair_vocab_order`. -/
theorem compare_pair_vocab_order_witness :
    (∀ s ∈ ["adam", "aisha"], lowerStr s = s) ∧
    (resolveEntities ["adam", "aisha"] ["4b"] (fun _ => none) freshState
      reqCompare).compare_pair = some ("adam", "aisha") ∧
    (∃ rest,
      foundStudents (lowerStr reqCompare.message) ["adam", "aisha"] =
        "adam" :: "aisha" :: rest) :=
  ⟨by decide, by decide,
   compare_pair_vocab_order ["adam", "aisha"] ["4b"] (fun _ => none)
     freshState reqCompare "adam" "aisha" (by decide) (by decide)⟩

set_option maxRecDepth 8192 in
/-- C3 (counterexample): for the message "Compare Aisha and Adam" with
vocabulary ["adam", "aisha"], the resolved pair is ("adam", "aisha") —
vocabulary order — although "aisha" first occurs at position 8 of the
lower-cased message and "adam" only at position 18, so first-occurrence
order would demand ("aisha", "adam"). -/
theorem compare_pair_order_counterexample :
    (resolveEntities ["adam", "aisha"] ["4b"] (fun _ => none) freshState
      reqCompare).compare_pair = some ("adam", "aisha") ∧
    strFind (lowerStr reqCompare.message) "aisha" = some 8 ∧
    strFind (lowerStr reqCompare.message) "adam" = some 18 := by decide

/-! ## Grounding snapshot limits (C5) -/

/-- Every grounding call the endpoint builds carries the endpoint's
per-shape `rows_limit`. -/
theorem chooseGrounding_limit (hsd : String → Bool) (req : ChatRequest)
    (r : ResolvedEntities) (g : GroundingCall)
    (h : chooseGrounding hsd req r = some g) :
    rowsLimitOf g = endpointRowsLimit g := by
  unfold chooseGrounding at h
  rcases hcp : r.compare_pair with _ | ⟨a, b⟩
  · rw [hcp] at h
    dsimp only at h
    split_ifs at h <;>
      first
      | (rw [Option.some_inj] at h; subst h; rfl)
      | simp at h
  · rw [hcp] at h
    dsimp only at h
    rw [Option.some_inj] at h
    subst h
    rfl

/-- The grounding a turn sends to the LLM comes from `chooseGrounding`
on the turn's resolved entities. -/
theorem chatTurn_grounding (env : ChatEnv) (stored : Option SessionState)
    (req : ChatRequest) (g : GroundingCall)
    (h : (chatTurn env stored req).grounding = some g) :
    chooseGrounding env.hasStudentData req (turnResolved env stored req) =
      some g := by
  by_cases hgate :
      (ESCALATION_THRESHOLD ≤
        (if env.sessionStoreAvailable = true then stored.getD freshState
          else freshState).dissatisfaction_count +
          (if detect_dissatisfaction req.message = true then 1 else 0) ∧
       (if env.sessionStoreAvailable = true then stored.getD freshState
          else freshState).escalated = false)
  · simp only [chatTurn] at h
    rw [if_pos hgate] at h
    simp at h
  · simp only [chatTurn] at h
    rw [if_neg hgate] at h
    dsimp only at h
    exact h

/-- The CSV snapshot of every shape is the tail of the relevant subset. -/
theorem groundingSnapshot_eq (data : List DataRow) (g : GroundingCall) :
    groundingSnapshot data g =
      lastN (rowsLimitOf g) (groundingSubset data g) := by
  cases g with
  | comparison q a b lim => rfl
  | multi q names lim => rfl
  | student q s lim =>
    unfold groundingSnapshot prepare_grounding_snapshot get_student_data
      groundingSubset
    dsimp only
    split_ifs with he
    · rw [List.isEmpty_iff] at he
      rw [he]
      rfl
    · rfl
  | cls q c lim => rfl
  | general q lim => rfl

/-- C5 (amended): every grounding the chat endpoint builds snapshots the
last `rows_limit` rows of the relevant row subset, with the per-shape
limits it passes: 40 for single-student, 50 for class, 60 for
comparison, 80 for multi-student — and 60 (not 80) for the general
grounding; the snapshot never exceeds the limit, so the full dataset is
never included once the subset is longer than the limit.  (The endpoint
never builds a ranking-shaped grounding.) -/
theorem grounding_rows_limit_spec (env : ChatEnv)
    (stored : Option SessionState) (req : ChatRequest)
    (g : GroundingCall) (data : List DataRow)
    (h : (chatTurn env stored req).grounding = some g) :
    rowsLimitOf g = endpointRowsLimit g ∧
    groundingSnapshot data g =
      lastN (rowsLimitOf g) (groundingSubset data g) ∧
    (groundingSnapshot data g).length =
      min (rowsLimitOf g) (groundingSubset data g).length ∧
    (rowsLimitOf g < (groundingSubset data g).length →
      groundingSnapshot data g ≠ groundingSubset data g) := by
  refine ⟨chooseGrounding_limit env.hasStudentData req _ g
    (chatTurn_grounding env stored req g h), groundingSnapshot_eq data g,
    ?_, ?_⟩
  · rw [groundingSnapshot_eq data g]
    exact lastN_length _ _
  · intro hlt hEq
    have hl := congrArg List.length hEq
    rw [groundingSnapshot_eq data g, lastN_length] at hl
    omega

set_option maxRecDepth 8192 in
/-- Closed instance of `grounding_rows_limit_spec`. -/
theorem grounding_rows_limit_spec_witness :
    (chatTurn envStd (some freshState) reqHello).grounding =
      some (GroundingCall.general "hello there" 60) ∧
    rowsLimitOf (GroundingCall.general "hello there" 60) =
      endpointRowsLimit (GroundingCall.general "hello there" 60) ∧
    groundingSnapshot rows80 (GroundingCall.general "hello there" 60) =
      lastN 60 rows80 :=
  ⟨by decide,
   (grounding_rows_limit_spec envStd (some freshState) reqHello
     (GroundingCall.general "hello there" 60) rows80 (by decide)).1,
   (grounding_rows_limit_spec envStd (some freshState) reqHello
     (GroundingCall.general "hello there" 60) rows80 (by decide)).2.1⟩

set_option maxRecDepth 8192 in
/-- C5 (counterexample): an entity-free turn builds the general grounding
with `rows_limit = 60`, so on an 80-row dataset the snapshot holds the
last 60 rows, not the last 80 the claim states. -/
theorem general_grounding_limit_counterexample :
    (chatTurn envStd (some freshState) reqHello).grounding =
      some (GroundingCall.general "hello there" 60) ∧
    rows80.length = 80 ∧
    (groundingSnapshot rows80
      (GroundingCall.general "hello there" 60)).length = 60 ∧
    groundingSnapshot rows80 (GroundingCall.general "hello there" 60) ≠
      lastN 80 rows80 := by decide

/-! ## Conversation history cap (C6) -/

/-- The endpoint's trim (`history[-50:]` when longer than 50) always
equals the last-50 suffix. -/
theorem trim_eq_lastN (l : List α) :
    (if 50 < l.length then lastN 50 l else l) = lastN 50 l := by
  split_ifs with h
  · rfl
  · exact (lastN_of_le (by omega)).symm

/-- C6 (amended): at the end of a non-escalation turn the stored history
is the most recent 50 entries, in order, of the prior history plus the
user and assistant messages — hence at most 50 entries.  The escalation
turn, however, persists the untrimmed prior history plus the triggering
user message, so a session whose history was at the 50-entry cap stores
51 entries on its escalation turn. -/
theorem history_cap_spec (env : ChatEnv) (stored : Option SessionState)
    (req : ChatRequest) (s : SessionState)
    (hs : (chatTurn env stored req).saved = some s) :
    (isEscalationTurn (chatTurn env stored req) = false →
      s.conversation_history =
        lastN 50 ((loadedState env stored).conversation_history ++
          [⟨"user", req.message⟩, ⟨"assistant", env.llmReply⟩]) ∧
      s.conversation_history.length ≤ 50) ∧
    (isEscalationTurn (chatTurn env stored req) = true →
      s.conversation_history =
        (loadedState env stored).conversation_history ++
          [⟨"user", req.message⟩] ∧
      s.conversation_history.length =
        (loadedState env stored).conversation_history.length + 1) ∧
    ((loadedState env stored).conversation_history.length ≤ 50 →
      s.conversation_history.length ≤ 51) := by
  by_cases hgate :
      (ESCALATION_THRESHOLD ≤
        (if env.sessionStoreAvailable = true then stored.getD freshState
          else freshState).dissatisfaction_count +
          (if detect_dissatisfaction req.message = true then 1 else 0) ∧
       (if env.sessionStoreAvailable = true then stored.getD freshState
          else freshState).escalated = false)
  · have hesc : isEscalationTurn (chatTurn env stored req) = true := by
      unfold chatTurn
      dsimp only
      rw [if_pos hgate]
      rfl
    simp only [chatTurn] at hs
    rw [if_pos hgate] at hs
    dsimp only at hs
    rw [Option.ite_none_right_eq_some, Option.some_inj] at hs
    obtain ⟨hav, hs2⟩ := hs
    subst hs2
    refine ⟨fun hc => absurd hesc (by simp [hc]),
      fun _ => ⟨rfl, by simp [loadedState]⟩, fun hlen => ?_⟩
    simp only [loadedState] at hlen
    simp [List.length_append]
    omega
  · have hesc : isEscalationTurn (chatTurn env stored req) = false := by
      unfold chatTurn
      dsimp only
      rw [if_neg hgate]
      rfl
    simp only [chatTurn] at hs
    rw [if_neg hgate] at hs
    dsimp only at hs
    rw [Option.ite_none_right_eq_some, Option.some_inj] at hs
    obtain ⟨hav, hs2⟩ := hs
    subst hs2
    refine ⟨fun _ => ⟨?_, ?_⟩, fun hc => absurd hesc (by simp [hc]),
      fun hlen => ?_⟩
    · rw [trim_eq_lastN]
      simp [List.append_assoc, loadedState]
    · rw [trim_eq_lastN, lastN_length]
      omega
    · rw [trim_eq_lastN, lastN_length]
      omega

set_option maxRecDepth 8192 in
/-- Closed instance of `history_cap_spec`. -/
theorem history_cap_spec_witness :
    (chatTurn envStd (some freshState) reqAisha).saved = some savedAisha ∧
    isEscalationTurn (chatTurn envStd (some freshState) reqAisha) = false ∧
    (savedAisha.conversation_history =
      lastN 50 ((loadedState envStd (some freshState)).conversation_history ++
        [⟨"user", reqAisha.message⟩, ⟨"assistant", envStd.llmReply⟩]) ∧
     savedAisha.conversation_history.length ≤ 50) :=
  ⟨by decide, by decide,
   (history_cap_spec envStd (some freshState) reqAisha savedAisha
     (by decide)).1 (by decide)⟩

set_option maxRecDepth 8192 in
/-- C6 (counterexample): a session at the 50-entry cap with two prior
dissatisfaction signals sends a dissatisfied message; the escalation
turn persists 51 history entries, violating the stated 50-entry cap for
escalation turns. -/
theorem history_cap_51_counterexample :
    histState50.conversation_history.length = 50 ∧
    ((chatTurn envStd (some histState50) reqFrustrated).saved.map
      (fun s => s.conversation_history.length)) = some 51 := by decide

/-! ## Case-insensitive student lookup (C9) -/

theorem char_toNat_ofNat_small (m : Nat) (h : m < 55296) :
    (Char.ofNat m).toNat = m := by
  have hv : m.isValidChar := Or.inl h
  rw [Char.ofNat, dif_pos hv]
  rfl

theorem char_ofNat_toNat (c : Char) : Char.ofNat c.toNat = c := by
  apply Char.eq_of_val_eq
  apply UInt32.toNat.inj
  have hv : c.toNat.isValidChar := c.valid
  rw [Char.ofNat, dif_pos hv]
  rfl

theorem toLower_eq (c : Char) :
    c.toLower =
      if 65 ≤ c.toNat ∧ c.toNat ≤ 90 then Char.ofNat (c.toNat + 32)
      else c := rfl

theorem toUpper_eq (c : Char) :
    c.toUpper =
      if 97 ≤ c.toNat ∧ c.toNat ≤ 122 then Char.ofNat (c.toNat - 32)
      else c := rfl

theorem toLower_toLower (c : Char) : c.toLower.toLower = c.toLower := by
  by_cases h : 65 ≤ c.toNat ∧ c.toNat ≤ 90
  · have h1 : c.toLower = Char.ofNat (c.toNat + 32) := by
      rw [toLower_eq, if_pos h]
    have ht : (Char.ofNat (c.toNat + 32)).toNat = c.toNat + 32 :=
      char_toNat_ofNat_small _ (by omega)
    rw [h1, toLower_eq, ht, if_neg (by omega)]
  · have h1 : c.toLower = c := by rw [toLower_eq, if_neg h]
    simp only [h1]

theorem toLower_toUpper (c : Char) : c.toUpper.toLower = c.toLower := by
  by_cases h : 97 ≤ c.toNat ∧ c.toNat ≤ 122
  · have h1 : c.toUpper = Char.ofNat (c.toNat - 32) := by
      rw [toUpper_eq, if_pos h]
    have ht : (Char.ofNat (c.toNat - 32)).toNat = c.toNat - 32 :=
      char_toNat_ofNat_small _ (by omega)
    rw [h1, toLower_eq, ht, if_pos (by omega)]
    rw [show c.toNat - 32 + 32 = c.toNat by omega]
    rw [char_ofNat_toNat]
    rw [toLower_eq, if_neg (by omega)]
  · have h1 : c.toUpper = c := by rw [toUpper_eq, if_neg h]
    rw [h1]

theorem lowerStr_lowerStr (s : String) :
    lowerStr (lowerStr s) = lowerStr s := by
  unfold lowerStr
  simp only [List.map_map]
  congr 1
  apply List.map_congr_left
  intro c _
  exact toLower_toLower c

theorem lowerStr_upperStr (s : String) :
    lowerStr (upperStr s) = lowerStr s := by
  unfold lowerStr upperStr
  simp only [List.map_map]
  congr 1
  apply List.map_congr_left
  intro c _
  exact toLower_toUpper c

theorem get_student_stats_filter_congr (n m : String) (data : List DataRow)
    (h : lowerStr n = lowerStr m) :
    data.filter (fun r => lowerStr r.student == lowerStr n) =
      data.filter (fun r => lowerStr r.student == lowerStr m) := by
  apply List.filter_congr
  intro r _
  rw [h]

theorem statsData_congr (n m : String) (data : List DataRow)
    (h : lowerStr n = lowerStr m) :
    statsData (get_student_stats n data) =
      statsData (get_student_stats m data) := by
  unfold get_student_stats
  rw [get_student_stats_filter_congr n m data h]
  dsimp only
  split_ifs <;> rfl

theorem get_student_stats_student (q : String) (data : List DataRow) :
    (get_student_stats q data).student = q := by
  unfold get_student_stats
  dsimp only
  split_ifs <;> rfl

/-- C9 (amended): `get_student_stats` selects the same rows — and hence
computes identical statistics — for a name, its lower-casing and its
upper-casing; only the `student` field, which echoes the queried string
verbatim, differs between the three results. -/
theorem get_student_stats_case_insensitive (data : List DataRow)
    (n : String) :
    statsData (get_student_stats (lowerStr n) data) =
      statsData (get_student_stats n data) ∧
    statsData (get_student_stats (upperStr n) data) =
      statsData (get_student_stats n data) ∧
    (get_student_stats (lowerStr n) data).student = lowerStr n ∧
    (get_student_stats (upperStr n) data).student = upperStr n ∧
    (get_student_stats n data).student = n :=
  ⟨statsData_congr _ _ _ (lowerStr_lowerStr n),
   statsData_congr _ _ _ (lowerStr_upperStr n),
   get_student_stats_student _ _,
   get_student_stats_student _ _,
   get_student_stats_student _ _⟩

/-- C9 (counterexample): for the dataset containing student "Aisha",
the full results for "Aisha", "aisha" and "AISHA" are pairwise unequal
dictionaries, because the `student` field echoes the query casing —
even though the stats payloads agree. -/
theorem get_student_stats_casing_counterexample :
    (get_student_stats "Aisha" [⟨"Aisha", "4B", 80⟩]).exists_ = true ∧
    get_student_stats "Aisha" [⟨"Aisha", "4B", 80⟩] ≠
      get_student_stats "aisha" [⟨"Aisha", "4B", 80⟩] ∧
    get_student_stats "Aisha" [⟨"Aisha", "4B", 80⟩] ≠
      get_student_stats "AISHA" [⟨"Aisha", "4B", 80⟩] ∧
    statsData (get_student_stats "Aisha" [⟨"Aisha", "4B", 80⟩]) =
      statsData (get_student_stats "aisha" [⟨"Aisha", "4B", 80⟩]) := by
  refine ⟨by decide, fun h => ?_, fun h => ?_,
    statsData_congr _ _ _ (by decide)⟩
  · have h2 := congrArg StudentStats.student h
    rw [get_student_stats_student, get_student_stats_student] at h2
    exact absurd h2 (by decide)
  · have h2 := congrArg StudentStats.student h
    rw [get_student_stats_student, get_student_stats_student] at h2
    exact absurd h2 (by decide)
